import Mathlib

/-!
Verification of the INA219 UPS current-sensor driver
(`daq_0Dviewer_UPSCurrent.py`).

The Python module is shallowly embedded: register constants and the
enumerated configuration fields become `Nat` constants; the pure
arithmetic of the driver (big-endian byte splitting, config-word
assembly, signed decoding of the current register, the fixed 32V/2A
calibration constants) becomes Lean functions on `Nat`/`Int`/`ℚ`;
the stateful bus interaction becomes explicit state passing over a
`Bus` record together with a trace of bus transactions, and fallible
operations return `Except`.
-/

namespace UPSCurrent

/-! ### Register addresses (module-level constants of the source) -/

def REG_CONFIG : Nat := 0x00
def REG_SHUNTVOLTAGE : Nat := 0x01
def REG_BUSVOLTAGE : Nat := 0x02
def REG_POWER : Nat := 0x03
def REG_CURRENT : Nat := 0x04
def REG_CALIBRATION : Nat := 0x05

/-! ### Enumerated configuration field constants (classes
`BusVoltageRange`, `Gain`, `ADCResolution`, `Mode` of the source) -/

namespace BusVoltageRange
def RANGE_16V : Nat := 0x00
def RANGE_32V : Nat := 0x01
/-- The set of valid `bus_voltage_range` field values. -/
def values : List Nat := [RANGE_16V, RANGE_32V]
end BusVoltageRange

namespace Gain
def DIV_1_40MV : Nat := 0x00
def DIV_2_80MV : Nat := 0x01
def DIV_4_160MV : Nat := 0x02
def DIV_8_320MV : Nat := 0x03
/-- The set of valid `gain` field values. -/
def values : List Nat := [DIV_1_40MV, DIV_2_80MV, DIV_4_160MV, DIV_8_320MV]
end Gain

namespace ADCResolution
def ADCRES_9BIT_1S : Nat := 0x00
def ADCRES_10BIT_1S : Nat := 0x01
def ADCRES_11BIT_1S : Nat := 0x02
def ADCRES_12BIT_1S : Nat := 0x03
def ADCRES_12BIT_2S : Nat := 0x09
def ADCRES_12BIT_4S : Nat := 0x0A
def ADCRES_12BIT_8S : Nat := 0x0B
def ADCRES_12BIT_16S : Nat := 0x0C
def ADCRES_12BIT_32S : Nat := 0x0D
def ADCRES_12BIT_64S : Nat := 0x0E
def ADCRES_12BIT_128S : Nat := 0x0F
/-- The set of valid ADC-resolution field values. -/
def values : List Nat :=
  [ADCRES_9BIT_1S, ADCRES_10BIT_1S, ADCRES_11BIT_1S, ADCRES_12BIT_1S,
   ADCRES_12BIT_2S, ADCRES_12BIT_4S, ADCRES_12BIT_8S, ADCRES_12BIT_16S,
   ADCRES_12BIT_32S, ADCRES_12BIT_64S, ADCRES_12BIT_128S]
end ADCResolution

namespace Mode
def POWERDOW : Nat := 0x00
def SVOLT_TRIGGERED : Nat := 0x01
def BVOLT_TRIGGERED : Nat := 0x02
def SANDBVOLT_TRIGGERED : Nat := 0x03
def ADCOFF : Nat := 0x04
def SVOLT_CONTINUOUS : Nat := 0x05
def BVOLT_CONTINUOUS : Nat := 0x06
def SANDBVOLT_CONTINUOUS : Nat := 0x07
/-- The set of valid `mode` field values. -/
def values : List Nat :=
  [POWERDOW, SVOLT_TRIGGERED, BVOLT_TRIGGERED, SANDBVOLT_TRIGGERED,
   ADCOFF, SVOLT_CONTINUOUS, BVOLT_CONTINUOUS, SANDBVOLT_CONTINUOUS]
end Mode

/-! ### Config word assembly and field extraction -/

/-- The config-word assembly of `set_calibration_32V_2A` (source lines
117–121): each field is left-shifted to its documented bit offset and
the results are bitwise-ORed. -/
def encodeConfig (range gain bus_adc shunt_adc mode : Nat) : Nat :=
  range <<< 13 ||| gain <<< 11 ||| bus_adc <<< 7 ||| shunt_adc <<< 3 ||| mode

/-- Bitmask extraction of the bus-voltage-range field (1 bit, offset 13). -/
def extractRange (w : Nat) : Nat := (w >>> 13) &&& 0x1

/-- Bitmask extraction of the gain field (2 bits, offset 11). -/
def extractGain (w : Nat) : Nat := (w >>> 11) &&& 0x3

/-- Bitmask extraction of the bus-ADC-resolution field (4 bits, offset 7). -/
def extractBusAdc (w : Nat) : Nat := (w >>> 7) &&& 0xF

/-- Bitmask extraction of the shunt-ADC-resolution field (4 bits, offset 3). -/
def extractShuntAdc (w : Nat) : Nat := (w >>> 3) &&& 0xF

/-- Bitmask extraction of the operating-mode field (3 bits, offset 0). -/
def extractMode (w : Nat) : Nat := w &&& 0x7

/-! ### Signed decoding of the current register -/

/-- The signed decode inside `get_current_mA` (source lines 127–128):
`if value > 32767: value -= 65535`.  Note the source subtracts 65535,
not 65536. -/
def decodeCurrent (raw : Nat) : Int :=
  if raw > 32767 then (raw : Int) - 65535 else (raw : Int)

/-- Modelled from the spec: the twos-complement conversion rule of
§3 ("if raw ≥ 32768, signed = raw − 65536, else signed = raw").  This
definition follows the spec's words and exists only to be compared with
`decodeCurrent`, which is embedded from the source. -/
def specTwosComplement (raw : Nat) : Int :=
  if raw ≥ 32768 then (raw : Int) - 65536 else (raw : Int)

/-! ### Calibration constants of `set_calibration_32V_2A` -/

/-- The state set by `set_calibration_32V_2A` (source lines 104–106):
`_current_lsb` is in mA per bit, `_power_lsb` in W per bit, exactly as
the source's float literals. -/
structure CalibrationState where
  current_lsb : ℚ
  cal_value : Nat
  power_lsb : ℚ
deriving DecidableEq, Repr

/-- `self._current_lsb = 0.1; self._cal_value = 4096;
self._power_lsb = 0.002` (source lines 104–106). -/
def set_calibration_32V_2A_state : CalibrationState :=
  { current_lsb := 1/10, cal_value := 4096, power_lsb := 2/1000 }

/-- The 32V/2A config word written by `set_calibration_32V_2A`
(source lines 112–121). -/
def config_32V_2A : Nat :=
  encodeConfig BusVoltageRange.RANGE_32V Gain.DIV_8_320MV
    ADCResolution.ADCRES_12BIT_32S ADCResolution.ADCRES_12BIT_32S
    Mode.SANDBVOLT_CONTINUOUS

/-! ### Bus transactions and the byte-level write -/

deriving instance DecidableEq for Except

/-- One I2C block transaction: device address, register, payload bytes. -/
structure Txn where
  addr : Nat
  reg : Nat
  data : List Nat
deriving DecidableEq, Repr

/-- The big-endian byte split of `UPSCurrentSensor.write` (source lines
90–92): `temp[0] = (data & 0xFF00) >> 8`, `temp[1] = data & 0xFF`. -/
def writeBytes (data : Nat) : List Nat :=
  [(data &&& 0xFF00) >>> 8, data &&& 0xFF]

/-- The bus transactions issued by one call of `UPSCurrentSensor.write`
(source lines 89–97).  The source calls
`self.bus.write_i2c_block_data(self.addr, address, temp)` at line 93 and
then calls it again, with identical arguments, inside the `try` block at
line 95 — so a single `write` call issues the same block-write
transaction twice. -/
def write (addr address data : Nat) : List Txn :=
  [⟨addr, address, writeBytes data⟩, ⟨addr, address, writeBytes data⟩]

/-- The register writes performed by `set_calibration_32V_2A` (source
lines 109 and 122): first the calibration register, then the config
register. -/
def set_calibration_32V_2A_writes (addr : Nat) : List Txn :=
  write addr REG_CALIBRATION set_calibration_32V_2A_state.cal_value ++
  write addr REG_CONFIG config_32V_2A

/-! ### Device probing (`find_ina219_address`, source lines 53–63) -/

/-- The loop body of `find_ina219_address`: starting at address `a`,
with `n` candidate addresses left, return the first address whose
`write_quick` probe acknowledges (`acks a = true` models a successful
`bus.write_quick(a)`; `false` models the `OSError` the loop catches). -/
def probeLoop (acks : Nat → Bool) : Nat → Nat → Option Nat
  | _, 0 => none
  | a, n + 1 => if acks a then some a else probeLoop acks (a + 1) n

/-- `find_ina219_address`: scan `range(0x03, 0x77)`, i.e. the 116
addresses 0x03..0x76 in ascending order, and return the first
responder, or `none` when the range is exhausted. -/
def find_ina219_address (acks : Nat → Bool) : Option Nat :=
  probeLoop acks 0x03 116

/-! ### Errors -/

/-- The failures that the driver's operations can surface, one
constructor per raise site of the source: `busOpenError` is the
`RuntimeError("Failed to open I2C bus …")` of line 72; `noDeviceFound`
is the `RuntimeError("No INA219 device found on the I²C bus!")` of line
77; `ioError` is the `IOError` wrap of line 97; `osError` is the
`OSError` the underlying `smbus` transport raises (in particular on any
I/O attempted on a closed bus handle).  `driverClosedError` is modelled
from the spec: §7 names a `DriverClosedError` for operations after
`close()`, but no such error class exists anywhere in the source. -/
inductive DriverError where
  | busOpenError
  | noDeviceFound
  | ioError
  | osError
  | driverClosedError
deriving DecidableEq, Repr

/-! ### The simulated bus transport (`smbus.SMBus` environment) -/

/-- The environment the driver talks to: an open/closed flag for the
bus handle and the device's register file (16-bit words per register).
`close()` clears the flag; any block read on a closed handle fails with
`OSError` at the OS level, before any bus transaction takes place. -/
structure Bus where
  isOpen : Bool
  regs : Nat → Nat

/-- `bus.read_i2c_block_data(addr, address, 2)`: on an open handle the
device answers the 2-byte big-endian image of the 16-bit register and
one bus transaction is recorded; on a closed handle the call fails with
`OSError` and no transaction occurs. -/
def Bus.read_i2c_block_data (b : Bus) (addr address : Nat) :
    Except DriverError (List Nat) × List Txn :=
  if b.isOpen then
    (Except.ok [(b.regs address >>> 8) &&& 0xFF, b.regs address &&& 0xFF],
     [⟨addr, address, []⟩])
  else
    (Except.error DriverError.osError, [])

/-! ### The sensor driver (`UPSCurrentSensor`) -/

/-- The instance state built by `UPSCurrentSensor.__init__`: the
resolved bus address and the fields set by `set_calibration_32V_2A`. -/
structure Sensor where
  addr : Nat
  cal_value : Nat
  current_lsb : ℚ
  power_lsb : ℚ
deriving DecidableEq, Repr

/-- `UPSCurrentSensor.__init__` (source lines 68–83): resolve the
address (the explicit one when given, else `find_ina219_address`);
raise `RuntimeError("No INA219 device found…")` when probing yields
nothing; otherwise set the 32V/2A calibration state and perform its
register writes.  Returns the constructed sensor together with the bus
transactions issued during initialization. -/
def Sensor.init (addr? : Option Nat) (acks : Nat → Bool) :
    Except DriverError (Sensor × List Txn) :=
  match (match addr? with
         | some a => some a
         | none => find_ina219_address acks) with
  | none => Except.error DriverError.noDeviceFound
  | some a =>
      Except.ok
        ({ addr := a,
           cal_value := set_calibration_32V_2A_state.cal_value,
           current_lsb := set_calibration_32V_2A_state.current_lsb,
           power_lsb := set_calibration_32V_2A_state.power_lsb },
         set_calibration_32V_2A_writes a)

/-- `UPSCurrentSensor.read` (source lines 85–87): block-read 2 bytes
from the register and combine them as `data[0] * 256 + data[1]`. -/
def Sensor.read (s : Sensor) (b : Bus) (address : Nat) :
    Except DriverError Nat × List Txn :=
  match Bus.read_i2c_block_data b s.addr address with
  | (Except.ok data, tr) => (Except.ok (data.getD 0 0 * 256 + data.getD 1 0), tr)
  | (Except.error e, tr) => (Except.error e, tr)

/-- `UPSCurrentSensor.get_current_mA` (source lines 124–129): read the
current register, decode it with `decodeCurrent`, scale by
`_current_lsb` — the result is in mA. -/
def Sensor.get_current_mA (s : Sensor) (b : Bus) :
    Except DriverError ℚ × List Txn :=
  match Sensor.read s b REG_CURRENT with
  | (Except.ok v, tr) => (Except.ok ((decodeCurrent v : ℚ) * s.current_lsb), tr)
  | (Except.error e, tr) => (Except.error e, tr)

/-- `UPSCurrentSensor.close_communication` (source lines 131–133):
`self.bus.close()` — the handle is closed, nothing else changes. -/
def Sensor.close_communication (b : Bus) : Bus :=
  { b with isOpen := false }

/-- A sensor as `__init__` builds it at address 0x41 with the 32V/2A
calibration state. -/
def sensor41 : Sensor :=
  { addr := 0x41, cal_value := 4096, current_lsb := 1/10, power_lsb := 2/1000 }

/-- An open bus whose device answers every register read with the
16-bit word `v`. -/
def busReturning (v : Nat) : Bus :=
  { isOpen := true, regs := fun _ => v }

/-! ### Characterization of the probing loop -/

/-- If the loop starting at `a` with `n` candidates returns `r`, then
`r` acknowledged, `r` lies in the scanned window, and no earlier
scanned address acknowledged. -/
theorem probeLoop_eq_some (acks : Nat → Bool) :
    ∀ n a r, probeLoop acks a n = some r →
      acks r = true ∧ a ≤ r ∧ r < a + n ∧
      ∀ b, a ≤ b → b < r → acks b = false := by
  intro n
  induction n with
  | zero => intro a r h; simp [probeLoop] at h
  | succ n ih =>
    intro a r h
    rw [probeLoop] at h
    by_cases ha : acks a = true
    · rw [if_pos ha] at h
      cases h
      exact ⟨ha, Nat.le_refl _, by omega, fun b hb1 hb2 => by omega⟩
    · rw [if_neg ha] at h
      obtain ⟨h1, h2, h3, h4⟩ := ih (a + 1) r h
      refine ⟨h1, by omega, by omega, fun b hb1 hb2 => ?_⟩
      rcases Nat.eq_or_lt_of_le hb1 with he | hl
      · rw [← he]; exact Bool.not_eq_true _ ▸ (by simpa using ha)
      · exact h4 b (by omega) hb2

/-- The loop returns `none` exactly when no address in the scanned
window acknowledges. -/
theorem probeLoop_eq_none (acks : Nat → Bool) :
    ∀ n a, probeLoop acks a n = none ↔
      ∀ b, a ≤ b → b < a + n → acks b = false := by
  intro n
  induction n with
  | zero =>
    intro a
    constructor
    · intro _ b hb1 hb2; omega
    · intro _; rfl
  | succ n ih =>
    intro a
    rw [probeLoop]
    by_cases ha : acks a = true
    · rw [if_pos ha]
      constructor
      · intro h; exact Option.noConfusion h
      · intro h
        have hfa := h a (Nat.le_refl a) (by omega)
        rw [ha] at hfa; exact Bool.noConfusion hfa
    · rw [if_neg ha]
      rw [ih (a + 1)]
      constructor
      · intro h b hb1 hb2
        rcases Nat.eq_or_lt_of_le hb1 with he | hl
        · rw [← he]; simpa using ha
        · exact h b (by omega) (by omega)
      · intro h b hb1 hb2
        exact h b (by omega) (by omega)

/-! ### Reading a register from the simulated device -/

/-- `UPSCurrentSensor.read` on an open bus whose device answers `v`
recombines the two big-endian bytes back into `v`, in one bus
transaction. -/
theorem Sensor.read_busReturning (s : Sensor) (v address : Nat)
    (hv : v ≤ 0xFFFF) :
    Sensor.read s (busReturning v) address =
      (Except.ok v, [⟨s.addr, address, []⟩]) := by
  have h1 : v &&& 255 = v % 256 := by
    have h := Nat.and_pow_two_sub_one_eq_mod v 8
    norm_num at h
    exact h
  have h2 : (v >>> 8) &&& 255 = v / 256 % 256 := by
    have ha := Nat.and_pow_two_sub_one_eq_mod (v >>> 8) 8
    have hb := Nat.shiftRight_eq_div_pow v 8
    norm_num at ha hb
    rw [ha, hb]
  have key : ((v >>> 8) &&& 255) * 256 + (v &&& 255) = v := by
    rw [h1, h2]; omega
  simp [Sensor.read, Bus.read_i2c_block_data, busReturning, key]

/-- `get_current_mA` on an open bus whose device answers `v` returns
the decoded value scaled by the current LSB. -/
theorem Sensor.get_current_mA_busReturning (s : Sensor) (v : Nat)
    (hv : v ≤ 0xFFFF) :
    Sensor.get_current_mA s (busReturning v) =
      (Except.ok ((decodeCurrent v : ℚ) * s.current_lsb),
       [⟨s.addr, REG_CURRENT, []⟩]) := by
  rw [Sensor.get_current_mA, Sensor.read_busReturning s v REG_CURRENT hv]

/-! ### Claim theorems -/

/-- Claim C1.  The claim states that the signed decode used by
`get_current_mA` follows the twos-complement rule (raw ≥ 32768 ⟹
signed = raw − 65536), with 0x8000 ↦ −32768.  The source instead
subtracts 65535 (`value -= 65535`, line 128), so raw 0x8000 decodes to
−32767, diverging from the twos-complement rule at every raw ≥ 32768;
the rule does hold at 0x7FFF and 0x0001. -/
theorem decodeCurrent_differs_from_twos_complement :
    decodeCurrent 0x8000 = -32767 ∧
    specTwosComplement 0x8000 = -32768 ∧
    decodeCurrent 0x8000 ≠ specTwosComplement 0x8000 ∧
    decodeCurrent 0x7FFF = 32767 ∧
    decodeCurrent 0x0001 = 1 := by decide

/-- All-combinations round-trip check for the config word, settled by
exhaustive evaluation over the 2·4·11·11·8 valid field values. -/
theorem encodeConfig_roundtrip_all :
    ∀ r ∈ BusVoltageRange.values, ∀ g ∈ Gain.values,
    ∀ b ∈ ADCResolution.values, ∀ s ∈ ADCResolution.values,
    ∀ m ∈ Mode.values,
      extractRange (encodeConfig r g b s m) = r ∧
      extractGain (encodeConfig r g b s m) = g ∧
      extractBusAdc (encodeConfig r g b s m) = b ∧
      extractShuntAdc (encodeConfig r g b s m) = s ∧
      extractMode (encodeConfig r g b s m) = m ∧
      encodeConfig r g b s m >>> 14 = 0 := by decide

/-- Claim C2.  For every combination of valid enumerated field values,
encoding the config word by left-shifting the fields to bit offsets 13,
11, 7, 3 and 0 and bitwise-ORing them, then extracting each field back
with its bit mask, recovers the original field values exactly, with no
cross-field bit bleed; the undocumented bits 14–15 are zero. -/
theorem encodeConfig_roundtrip (r g b s m : Nat)
    (hr : r ∈ BusVoltageRange.values) (hg : g ∈ Gain.values)
    (hb : b ∈ ADCResolution.values) (hs : s ∈ ADCResolution.values)
    (hm : m ∈ Mode.values) :
    extractRange (encodeConfig r g b s m) = r ∧
    extractGain (encodeConfig r g b s m) = g ∧
    extractBusAdc (encodeConfig r g b s m) = b ∧
    extractShuntAdc (encodeConfig r g b s m) = s ∧
    extractMode (encodeConfig r g b s m) = m ∧
    encodeConfig r g b s m >>> 14 = 0 :=
  encodeConfig_roundtrip_all r hr g hg b hb s hs m hm

/-- Witness for C2 at the 32V/2A field values the driver writes. -/
theorem encodeConfig_roundtrip_witness :
    (1 ∈ BusVoltageRange.values ∧ 3 ∈ Gain.values ∧
     13 ∈ ADCResolution.values ∧ 13 ∈ ADCResolution.values ∧
     7 ∈ Mode.values) ∧
    (extractRange (encodeConfig 1 3 13 13 7) = 1 ∧
     extractGain (encodeConfig 1 3 13 13 7) = 3 ∧
     extractBusAdc (encodeConfig 1 3 13 13 7) = 13 ∧
     extractShuntAdc (encodeConfig 1 3 13 13 7) = 13 ∧
     extractMode (encodeConfig 1 3 13 13 7) = 7 ∧
     encodeConfig 1 3 13 13 7 >>> 14 = 0) :=
  ⟨by decide,
   encodeConfig_roundtrip 1 3 13 13 7 (by decide) (by decide) (by decide)
     (by decide) (by decide)⟩

/-- Claim C4.  `set_calibration_32V_2A` yields a current LSB of 0.1 mA
per bit, a calibration register value of 4096, and a power LSB of
0.002 W = 2.0 mW per bit, satisfying power_lsb = 20 × current_lsb. -/
theorem set_calibration_32V_2A_values :
    set_calibration_32V_2A_state.current_lsb = 1/10 ∧
    set_calibration_32V_2A_state.cal_value = 4096 ∧
    1000 * set_calibration_32V_2A_state.power_lsb = 2 ∧
    1000 * set_calibration_32V_2A_state.power_lsb =
      20 * set_calibration_32V_2A_state.current_lsb := by
  refine ⟨rfl, rfl, ?_, ?_⟩ <;> norm_num [set_calibration_32V_2A_state]

/-- Claim C10 (implicit).  The signed decode inside `get_current_mA`
maps raw 0x0000 and raw 0xFFFF to the same reading, 0.0 mA, and for
every 16-bit raw word the decoded integer lies in [−32767, 32767]; the
value −32768 is never produced. -/
theorem decodeCurrent_range (raw : Nat) (h : raw ≤ 0xFFFF) :
    (Sensor.get_current_mA sensor41 (busReturning 0x0000)).1 = Except.ok 0 ∧
    (Sensor.get_current_mA sensor41 (busReturning 0xFFFF)).1 = Except.ok 0 ∧
    -32767 ≤ decodeCurrent raw ∧ decodeCurrent raw ≤ 32767 ∧
    decodeCurrent raw ≠ -32768 := by
  refine ⟨?_, ?_, ?_, ?_, ?_⟩
  · rw [Sensor.get_current_mA_busReturning sensor41 0x0000 (by norm_num)]
    norm_num [decodeCurrent, sensor41]
  · rw [Sensor.get_current_mA_busReturning sensor41 0xFFFF (by norm_num)]
    norm_num [decodeCurrent, sensor41]
  · unfold decodeCurrent; split <;> omega
  · unfold decodeCurrent; split <;> omega
  · unfold decodeCurrent; split <;> omega

/-- Witness for C10 at raw = 0x8000. -/
theorem decodeCurrent_range_witness :
    (0x8000 : Nat) ≤ 0xFFFF ∧
    (-32767 ≤ decodeCurrent 0x8000 ∧ decodeCurrent 0x8000 ≤ 32767 ∧
     decodeCurrent 0x8000 ≠ -32768) :=
  ⟨by decide, (decodeCurrent_range 0x8000 (by decide)).2.2⟩

/-- Claim C3.  The claim states that `write` splits the value
big-endian and writes both bytes in exactly one bus transaction per
call.  The byte split is indeed big-endian, but the source calls
`write_i2c_block_data` twice with identical arguments (once at line 93
and once inside the `try` at line 95), so each call issues the same
transaction twice, not once. -/
theorem write_issues_two_transactions :
    writeBytes 4096 = [0x10, 0x00] ∧
    write 0x41 REG_CALIBRATION 4096 =
      [⟨0x41, REG_CALIBRATION, [0x10, 0x00]⟩,
       ⟨0x41, REG_CALIBRATION, [0x10, 0x00]⟩] ∧
    (write 0x41 REG_CALIBRATION 4096).length ≠ 1 := by decide

/-- Claim C5.  `find_ina219_address` scans the inclusive address range
[0x03, 0x76] in ascending order, returns the first acknowledging
address, returns `none` exactly when no address in the range
acknowledges, and on a bus where only 0x41 acknowledges returns
0x41. -/
theorem find_ina219_address_spec (acks : Nat → Bool) :
    (∀ r, find_ina219_address acks = some r →
       acks r = true ∧ 0x03 ≤ r ∧ r ≤ 0x76 ∧
       ∀ b, 0x03 ≤ b → b < r → acks b = false) ∧
    (find_ina219_address acks = none ↔
       ∀ b, 0x03 ≤ b → b ≤ 0x76 → acks b = false) ∧
    ((∀ a, acks a = true ↔ a = 0x41) →
       find_ina219_address acks = some 0x41) := by
  refine ⟨?_, ?_, ?_⟩
  · intro r h
    obtain ⟨h1, h2, h3, h4⟩ := probeLoop_eq_some acks 116 0x03 r h
    exact ⟨h1, h2, by omega, h4⟩
  · rw [find_ina219_address, probeLoop_eq_none]
    constructor
    · intro h b hb1 hb2; exact h b hb1 (by omega)
    · intro h b hb1 hb2; exact h b hb1 (by omega)
  · intro h
    have hacks : acks = fun a => a == 0x41 := by
      funext a
      by_cases hc : a = 0x41
      · rw [hc]
        simp [(h 0x41).mpr rfl]
      · have hne : acks a ≠ true := fun ht => hc ((h a).mp ht)
        simp only [Bool.not_eq_true] at hne
        simp [hne, hc]
    rw [hacks]
    decide

/-- Witness for C5 on a bus acknowledging only at 0x41. -/
theorem find_ina219_address_spec_witness :
    find_ina219_address (fun a => a == 0x41) = some 0x41 :=
  (find_ina219_address_spec (fun a => a == 0x41)).2.2 (by intro a; simp)

/-- Claim C6.  Constructing a driver with no explicit address, on a bus
acknowledging only at 0x41 whose device answers the current register
with raw 0x0032 (50), resolves address 0x41 and `get_current_mA`
returns exactly 5.0 mA. -/
theorem init_and_read_end_to_end :
    ∃ s tr, Sensor.init none (fun a => a == 0x41) = Except.ok (s, tr) ∧
      s.addr = 0x41 ∧
      (Sensor.get_current_mA s (busReturning 0x0032)).1 = Except.ok 5 := by
  have hfind : find_ina219_address (fun a => a == 0x41) = some 0x41 := by
    decide
  have hinit : Sensor.init none (fun a => a == 0x41) =
      Except.ok
        ({ addr := 0x41, cal_value := 4096, current_lsb := 1/10,
           power_lsb := 2/1000 },
         set_calibration_32V_2A_writes 0x41) := by
    simp [Sensor.init, hfind, set_calibration_32V_2A_state]
  refine ⟨_, _, hinit, rfl, ?_⟩
  rw [Sensor.get_current_mA_busReturning _ 0x0032 (by norm_num)]
  norm_num [decodeCurrent]

/-- Claim C7 counterexample.  The claim states that a read issued
after `close_communication` fails with `DriverClosedError`.  On a
concrete closed bus the read fails with the transport's `OSError`
instead — no `DriverClosedError` exists in the source. -/
theorem read_after_close_error_kind :
    (Sensor.get_current_mA sensor41
       (Sensor.close_communication (busReturning 0x0032))).1 =
      Except.error DriverError.osError ∧
    DriverError.osError ≠ DriverError.driverClosedError := by
  constructor
  · simp [Sensor.get_current_mA, Sensor.read, Bus.read_i2c_block_data,
      Sensor.close_communication, busReturning]
  · decide

/-- Claim C7 amended.  A read issued after `close_communication` is
delegated to the closed bus handle: it fails with the transport's
`OSError` (not a dedicated `DriverClosedError`, which the source never
defines) and performs no bus transaction. -/
theorem read_after_close_osError (s : Sensor) (b : Bus) :
    Sensor.get_current_mA s (Sensor.close_communication b) =
      (Except.error DriverError.osError, []) := by
  simp [Sensor.get_current_mA, Sensor.read, Bus.read_i2c_block_data,
    Sensor.close_communication]

/-- Witness for the amended C7 on a concrete sensor and bus. -/
theorem read_after_close_osError_witness :
    Sensor.get_current_mA sensor41
      (Sensor.close_communication (busReturning 0)) =
      (Except.error DriverError.osError, []) :=
  read_after_close_osError sensor41 (busReturning 0)

/-- Claim C8.  In `set_calibration_32V_2A` every write to the
calibration register (0x05) occurs strictly before every write to the
config register (0x00). -/
theorem calibration_written_before_config (addr i j : Nat)
    (hi : i < (set_calibration_32V_2A_writes addr).length)
    (hj : j < (set_calibration_32V_2A_writes addr).length)
    (hri : ((set_calibration_32V_2A_writes addr).get ⟨i, hi⟩).reg =
      REG_CALIBRATION)
    (hrj : ((set_calibration_32V_2A_writes addr).get ⟨j, hj⟩).reg =
      REG_CONFIG) :
    i < j := by
  have hlen : (set_calibration_32V_2A_writes addr).length = 4 := rfl
  have hi4 : i < 4 := by omega
  have hj4 : j < 4 := by omega
  interval_cases i <;> interval_cases j <;>
    first
      | omega
      | exact absurd (show (0 : Nat) = REG_CALIBRATION from hri) (by decide)
      | exact absurd (show (5 : Nat) = REG_CONFIG from hrj) (by decide)

/-- Witness for C8: the first calibration write (index 0) precedes the
first config write (index 2). -/
theorem calibration_written_before_config_witness : (0 : Nat) < 2 :=
  calibration_written_before_config 0x41 0 2 (by decide) (by decide)
    (by decide) (by decide)

/-- Claim C9.  When no explicit address is supplied and no address in
the probed range acknowledges, `__init__` fails with the dedicated
no-device error (the `RuntimeError("No INA219 device found on the I²C
bus!")` raise, the spec's `DeviceNotFoundError`) and no sensor object
is produced. -/
theorem init_probe_exhausted_fails (acks : Nat → Bool)
    (h : ∀ a, 0x03 ≤ a → a ≤ 0x76 → acks a = false) :
    Sensor.init none acks = Except.error DriverError.noDeviceFound ∧
    ∀ s tr, Sensor.init none acks ≠ Except.ok (s, tr) := by
  have hfind : find_ina219_address acks = none := by
    rw [find_ina219_address, probeLoop_eq_none]
    intro b hb1 hb2
    exact h b hb1 (by omega)
  have h1 : Sensor.init none acks = Except.error DriverError.noDeviceFound := by
    simp [Sensor.init, hfind]
  exact ⟨h1, fun s tr hc => by rw [h1] at hc; exact Except.noConfusion hc⟩

/-- Witness for C9 on a bus with no acknowledgments at all. -/
theorem init_probe_exhausted_fails_witness :
    Sensor.init none (fun _ => false) =
      Except.error DriverError.noDeviceFound :=
  (init_probe_exhausted_fails (fun _ => false) (fun _ _ _ => rfl)).1

end UPSCurrent
